import Mathlib

/-!
Shallow embedding of `src/old/metalshader.c` (pannous/metalshader).

The program is a single-file Vulkan/DRM shader viewer.  The embedding below
translates, from the C source:

* the Linux input-event constants and the keyboard router `check_keyboard`
  (lines 191-233);
* the shader-registry scanner `scan_shaders` / `scan_all_shaders`
  (lines 106-160) together with the startup argument handling of `main`
  (lines 236-259);
* the fixed graphics-pipeline construction parameters (lines 563-598) and
  the per-frame draw call (line 633);
* the per-frame row copy from the render surface into the scanout buffer
  (lines 646-653);
* the main-loop iteration of `main` (lines 538-659) as a step function on an
  explicit engine state, with GPU handles modelled as natural numbers and a
  live-handle set tracking which objects have not been destroyed.

Machine integers are modelled as `Int`/`Nat`; the C `%` operator on `int` is
truncated division, hence `Int.tmod`.  Timestamps are exact naturals
(nanosecond counts); the C code converts the clock delta to `float` only for
presentation, which does not affect which epoch the delta is taken from.
-/

namespace Metalshader

/-! ## Input events and key constants (linux/input.h values used by the code) -/

/-- EV_KEY from linux input, value 1. -/
def EV_KEY : Nat := 1

/-- KEY_ESC scancode. -/
def KEY_ESC : Nat := 1

/-- KEY_Q scancode. -/
def KEY_Q : Nat := 16

/-- KEY_F scancode. -/
def KEY_F : Nat := 33

/-- KEY_LEFT scancode. -/
def KEY_LEFT : Nat := 105

/-- KEY_RIGHT scancode. -/
def KEY_RIGHT : Nat := 106

/-- One `struct input_event` as read by `check_keyboard`: only the
`type`, `code` and `value` fields are consulted by the code. -/
structure InputEvent where
  type : Nat
  code : Nat
  value : Int
  deriving DecidableEq, Repr

/-- Result of one call to `check_keyboard`: the shared state it may have
mutated (`cur` = `current_shader`, `rel` = `reload_requested`), whether
`exit(0)` was reached, and the queue events left unread (nonempty only when
an exit key cut the drain short, since `exit` never returns). -/
structure KbdResult where
  cur : Int
  rel : Bool
  exited : Bool
  remaining : List InputEvent
  deriving DecidableEq, Repr

/-- `current_shader` step for KEY_RIGHT: `(current_shader + 1) % shader_count`,
C truncated `%` on `int`. -/
def nextIndex (count i : Int) : Int := (i + 1).tmod count

/-- `current_shader` step for KEY_LEFT:
`(current_shader - 1 + shader_count) % shader_count`, C truncated `%`. -/
def prevIndex (count i : Int) : Int := (i - 1 + count).tmod count

/-- `check_keyboard` (lines 191-233): drains the queued events in order.
Events that are not key presses (`ev.type != EV_KEY || ev.value != 1`) are
skipped.  KEY_LEFT / KEY_RIGHT step `current_shader` with wraparound and set
`reload_requested`; KEY_F only performs best-effort host signalling I/O and
touches no runtime state; KEY_ESC / KEY_Q call `exit(0)`, terminating the
process with the rest of the queue unread.  All other codes fall through the
`switch` with no effect. -/
def check_keyboard (count : Int) : Int → Bool → List InputEvent → KbdResult
  | cur, rel, [] => ⟨cur, rel, false, []⟩
  | cur, rel, ev :: rest =>
    if ev.type ≠ EV_KEY ∨ ev.value ≠ 1 then
      check_keyboard count cur rel rest
    else if ev.code = KEY_LEFT then
      check_keyboard count (prevIndex count cur) true rest
    else if ev.code = KEY_RIGHT then
      check_keyboard count (nextIndex count cur) true rest
    else if ev.code = KEY_F then
      check_keyboard count cur rel rest
    else if ev.code = KEY_ESC ∨ ev.code = KEY_Q then
      ⟨cur, rel, true, rest⟩
    else
      check_keyboard count cur rel rest

/-- A key-press event (`type == EV_KEY`, `value == 1`) whose code is one of
the two exit keys. -/
def isExitPress (ev : InputEvent) : Prop :=
  ev.type = EV_KEY ∧ ev.value = 1 ∧ (ev.code = KEY_ESC ∨ ev.code = KEY_Q)

instance (ev : InputEvent) : Decidable (isExitPress ev) := by
  unfold isExitPress; infer_instance

end Metalshader

namespace Metalshader

/-! ## Per-frame row copy (lines 646-653)

Byte memories are total functions `Nat → Nat` (offset to byte value).  The C
loop is `for (y = 0; y < H; y++) memcpy(dst + y*dstStride, src + y*srcPitch,
W*4)`. -/

/-- Effect of one `memcpy` of row `y`: `W * 4` bytes starting at destination
offset `y * pDst` are taken from source offset `y * pSrc` onward. -/
def copyRow (W pSrc pDst : Nat) (src dst : Nat → Nat) (y : Nat) : Nat → Nat :=
  fun a => if y * pDst ≤ a ∧ a < y * pDst + W * 4
    then src (y * pSrc + (a - y * pDst))
    else dst a

/-- Rows `0, 1, ..., h-1` copied in increasing order, as the C loop does. -/
def copyRows (W pSrc pDst : Nat) (src dst : Nat → Nat) : Nat → (Nat → Nat)
  | 0 => dst
  | h + 1 => copyRow W pSrc pDst src (copyRows W pSrc pDst src dst h) h

end Metalshader

namespace Metalshader

/-! ## Shader discovery (`scan_shaders`, `scan_all_shaders`, lines 106-160)
and startup argument handling (`main`, lines 236-259) -/

/-- Index of the last occurrence of `c` (the C `strrchr`), if any. -/
def lastIdxOf (c : Char) : List Char → Option Nat
  | [] => none
  | d :: rest =>
    match lastIdxOf c rest with
    | some j => some (j + 1)
    | none => if d = c then some 0 else none

/-- Split a file name at its last dot: `strrchr(name, '.')` giving the base
(before the dot) and the extension (the dot included); `none` when the name
has no dot. -/
def lastDotSplit (s : String) : Option (String × String) :=
  match lastIdxOf '.' s.toList with
  | none => none
  | some i => some (⟨s.toList.take i⟩, ⟨s.toList.drop i⟩)

/-- `get_basename` (lines 75-78): the part after the last slash. -/
def get_basename (p : String) : String :=
  match lastIdxOf '/' p.toList with
  | none => p
  | some i => ⟨p.toList.drop (i + 1)⟩

/-- One `struct dirent` as consulted by `scan_shaders`: the name and whether
`d_type == DT_REG`. -/
structure DirEnt where
  dname : String
  isReg : Bool
  deriving DecidableEq, Repr

/-- One registry entry (`ShaderInfo`, lines 36-40). -/
structure ShaderInfo where
  name : String
  vert_path : String
  frag_path : String
  deriving DecidableEq, Repr

/-- MAX_SHADERS (line 28). -/
def MAX_SHADERS : Nat := 256

/-- The registry entry built by `scan_shaders` for base name `base` found in
directory `dir` (the two `snprintf` calls, lines 127-130). -/
def mkInfo (dir base : String) : ShaderInfo :=
  ⟨base, dir ++ "/" ++ base ++ ".vert.spv", dir ++ "/" ++ base ++ ".frag.spv"⟩

/-- `scan_shaders` (lines 106-140): walk the directory listing in order,
keeping a regular entry only when its name splits as `<base>.frag` with
`base` shorter than 256 characters and both `<dir>/<base>.vert.spv` and
`<dir>/<base>.frag.spv` exist (`ex` is the `stat` oracle); the registry is
capped at MAX_SHADERS entries. -/
def scan_shaders (ex : String → Bool) (dir : String) :
    List DirEnt → List ShaderInfo → List ShaderInfo
  | [], acc => acc
  | e :: rest, acc =>
    if acc.length ≥ MAX_SHADERS then acc
    else if e.isReg = false then scan_shaders ex dir rest acc
    else
      match lastDotSplit e.dname with
      | none => scan_shaders ex dir rest acc
      | some (base, ext) =>
        if ext ≠ ".frag" then scan_shaders ex dir rest acc
        else if base.length ≥ 256 then scan_shaders ex dir rest acc
        else if ex (dir ++ "/" ++ base ++ ".vert.spv")
                && ex (dir ++ "/" ++ base ++ ".frag.spv") then
          scan_shaders ex dir rest (acc ++ [mkInfo dir base])
        else scan_shaders ex dir rest acc

/-- The three search locations of `scan_all_shaders` (lines 144-149). -/
def searchDirs : List String := [".", "./shaders", "/root/metalshade/shaders"]

/-- `scan_all_shaders` (lines 143-160): the three locations scanned in
order into one shared registry. -/
def scan_all_shaders (ex : String → Bool) (listing : String → List DirEnt) :
    List ShaderInfo :=
  searchDirs.foldl (fun acc d => scan_shaders ex d (listing d) acc) []

/-- `find_shader_by_name` (lines 163-168): index of the first entry whose
name matches, `none` for the C `-1`. -/
def findIdxFrom (name : String) : List ShaderInfo → Nat → Option Nat
  | [], _ => none
  | s :: rest, i => if s.name = name then some i else findIdxFrom name rest (i + 1)

def find_shader_by_name (ss : List ShaderInfo) (name : String) : Option Nat :=
  findIdxFrom name ss 0

/-- Outcome of the startup section of `main` (lines 236-259). -/
inductive StartupResult where
  | noPrograms
  | notFound (available : List String)
  | ok (idx : Nat)
  deriving DecidableEq, Repr

/-- Startup (lines 236-259): default the argument to "example", reduce it to
its basename, scan, and either report no programs (exit 1), an unknown name
with the available names listed (exit 1), or the selected index. -/
def startup (ex : String → Bool) (listing : String → List DirEnt)
    (argv : List String) : StartupResult :=
  let shader_arg := if argv.length < 2 then "example" else argv.getD 1 ""
  let shader_name := get_basename shader_arg
  let ss := scan_all_shaders ex listing
  if ss.length = 0 then .noPrograms
  else
    match find_shader_by_name ss shader_name with
    | none => .notFound (ss.map (fun s => s.name))
    | some i => .ok i

end Metalshader

namespace Metalshader

/-- Eligibility of one directory entry in `scan_shaders`: a regular file
named `<base>.frag` (split at the last dot), `base` shorter than 256
characters, with both compiled binaries present in the same location, and
`info` the registry entry this produces. -/
def entryHit (ex : String → Bool) (dir : String) (e : DirEnt)
    (info : ShaderInfo) : Prop :=
  e.isReg = true ∧ ∃ base,
    lastDotSplit e.dname = some (base, ".frag") ∧
    base.length < 256 ∧
    ex (dir ++ "/" ++ base ++ ".vert.spv") = true ∧
    ex (dir ++ "/" ++ base ++ ".frag.spv") = true ∧
    info = mkInfo dir base

end Metalshader

namespace Metalshader

/-! ## Graphics-pipeline construction parameters (lines 563-598, 630-633) -/

/-- The VkPrimitiveTopology values relevant here. -/
inductive Topology where
  | pointList
  | lineList
  | triangleList
  | triangleStrip
  deriving DecidableEq, Repr

/-- A VkViewport: `{0, 0, W, H, 0, 1}` in the code. -/
structure Viewport where
  x : Nat
  y : Nat
  width : Nat
  height : Nat
  minDepth : Nat
  maxDepth : Nat
  deriving DecidableEq, Repr

/-- A VkRect2D: offset and extent. -/
structure Rect2D where
  offX : Nat
  offY : Nat
  extW : Nat
  extH : Nat
  deriving DecidableEq, Repr

/-- The fields of the `VkGraphicsPipelineCreateInfo` (and its sub-structs)
that the code fills in, lines 563-598.  Fields the code leaves zeroed keep
their C zero meaning (no vertex bindings, blend disabled, no
depth/stencil). -/
structure GraphicsPipelineDesc where
  stageCount : Nat
  vertModule : Nat
  fragModule : Nat
  vertexBindingCount : Nat
  vertexAttributeCount : Nat
  topology : Topology
  viewportCount : Nat
  viewport : Viewport
  scissorCount : Nat
  scissor : Rect2D
  cullModeNone : Bool
  sampleCount : Nat
  colorAttachmentCount : Nat
  blendEnable : Bool
  colorWriteMask : Nat
  depthStencil : Option Unit
  deriving DecidableEq, Repr

/-- The pipeline-shape part: every construction parameter except the two
shader-stage modules. -/
structure PipelineShape where
  stageCount : Nat
  vertexBindingCount : Nat
  vertexAttributeCount : Nat
  topology : Topology
  viewportCount : Nat
  viewport : Viewport
  scissorCount : Nat
  scissor : Rect2D
  cullModeNone : Bool
  sampleCount : Nat
  colorAttachmentCount : Nat
  blendEnable : Bool
  colorWriteMask : Nat
  depthStencil : Option Unit
  deriving DecidableEq, Repr

/-- The `VkGraphicsPipelineCreateInfo` the reload path builds (lines
563-598): only the two module handles vary; everything else is literal. -/
def makePipelineDesc (W H vm fm : Nat) : GraphicsPipelineDesc :=
  { stageCount := 2
    vertModule := vm
    fragModule := fm
    vertexBindingCount := 0
    vertexAttributeCount := 0
    topology := .triangleList
    viewportCount := 1
    viewport := ⟨0, 0, W, H, 0, 1⟩
    scissorCount := 1
    scissor := ⟨0, 0, W, H⟩
    cullModeNone := true
    sampleCount := 1
    colorAttachmentCount := 1
    blendEnable := false
    colorWriteMask := 0xF
    depthStencil := none }

/-- Drop the module handles from a pipeline description. -/
def shapeOf (d : GraphicsPipelineDesc) : PipelineShape :=
  { stageCount := d.stageCount
    vertexBindingCount := d.vertexBindingCount
    vertexAttributeCount := d.vertexAttributeCount
    topology := d.topology
    viewportCount := d.viewportCount
    viewport := d.viewport
    scissorCount := d.scissorCount
    scissor := d.scissor
    cullModeNone := d.cullModeNone
    sampleCount := d.sampleCount
    colorAttachmentCount := d.colorAttachmentCount
    blendEnable := d.blendEnable
    colorWriteMask := d.colorWriteMask
    depthStencil := d.depthStencil }

/-- The per-frame draw call `vkCmdDraw(cmd, 6, 1, 0, 0)` (line 633):
vertex count, instance count, first vertex, first instance. -/
def drawArgs : Nat × Nat × Nat × Nat := (6, 1, 0, 0)

end Metalshader

namespace Metalshader

/-! ## The main loop (lines 538-659) as a step function

GPU objects (shader modules, pipelines) are handles drawn from a counter;
`live` holds the handles created and not yet destroyed, `destroyed` logs
every `vkDestroy*` call in order.  The handle variables `pipelineH`, `vmH`,
`fmH` mirror the C variables `pipeline`, `vm`, `fm` - after a destroy they
still hold their old (now dangling) values, as in the C code.  `builtFor`
records which program index the current pipeline handle was built from.
Timestamps are naturals; `start` is the `struct timespec start` epoch. -/

structure EngineConfig where
  W : Nat
  H : Nat
  rtPitch : Nat
  count : Int

structure EngineState where
  current_shader : Int
  reload_requested : Bool
  pipelineH : Option Nat
  vmH : Option Nat
  fmH : Option Nat
  builtFor : Option Int
  live : List Nat
  destroyed : List Nat
  nextH : Nat
  start : Nat
  frames : Nat
  scanout : Nat → Nat

/-- Per-iteration environment: whether both `load_spv` calls succeed, the
two monotonic clock samples (line 602 and line 606), the drained input
events, the render-surface bytes produced by this frame's submission, and
the scanout mapping result. -/
structure FrameInput where
  loadOk : Bool
  nowR : Nat
  now : Nat
  events : List InputEvent
  surface : Nat → Nat
  mapOk : Bool
  gbmStride : Nat

/-- The per-frame uniform block (`ShaderToyUBO`, lines 30-34, filled at
lines 613-617). -/
structure UBO where
  iResolution : Nat × Nat × Nat
  iTime : Nat
  iMouse : Nat × Nat × Nat × Nat
  deriving DecidableEq, Repr

/-- Result of one pass through the `while(1)` body: `exited` when
`check_keyboard` reached `exit(0)`; `retry` when shader loading failed and
the body did `sleep(1); continue`; `frame` when a command buffer was
recorded, submitted and presented, with the uniform block it wrote. -/
inductive IterOutcome where
  | exited (s : EngineState)
  | retry (s : EngineState)
  | frame (s : EngineState) (ubo : UBO)

/-- `vkDestroy*` guarded by `!= VK_NULL_HANDLE` (lines 542-544): remove the
handle from the live set and log the call; the variable keeps its value. -/
def destroyHandle (h : Option Nat) (s : EngineState) : EngineState :=
  match h with
  | none => s
  | some v => { s with live := s.live.filter (fun x => x != v),
                       destroyed := s.destroyed ++ [v] }

/-- Lines 542-544: destroy the old pipeline, then the old vertex module,
then the old fragment module. -/
def destroyOld (s : EngineState) : EngineState :=
  destroyHandle s.fmH (destroyHandle s.vmH (destroyHandle s.pipelineH s))

/-- The state after a successful reload (lines 556-603): the two modules
and the pipeline are created as fresh handles, `reload_requested` is
cleared, the epoch `start` is reset to the line-602 clock sample, and the
frame counter is zeroed. -/
def reloadSuccState (s : EngineState) (inp : FrameInput) : EngineState :=
  let s1 := destroyOld s
  { s1 with vmH := some s1.nextH
            fmH := some (s1.nextH + 1)
            pipelineH := some (s1.nextH + 2)
            live := s1.live ++ [s1.nextH, s1.nextH + 1, s1.nextH + 2]
            nextH := s1.nextH + 3
            builtFor := some s1.current_shader
            reload_requested := false
            start := inp.nowR
            frames := 0 }

/-- Lines 541-603: tear down the previous objects, then try to load both
binaries.  On failure return `false` (the body will `continue`); on success
construct the replacement objects. -/
def reloadPhase (s : EngineState) (inp : FrameInput) : EngineState × Bool :=
  if inp.loadOk then (reloadSuccState s inp, true)
  else (destroyOld s, false)

/-- Lines 606-658: compute the elapsed time, poll the keyboard (possibly
exiting), write the uniform block, record and submit the draw, wait on the
fence, then copy the render surface into the scanout buffer when it maps,
mark the framebuffer dirty and advance the frame counter. -/
def framePhase (cfg : EngineConfig) (s1 : EngineState) (inp : FrameInput) :
    IterOutcome :=
  let t := inp.now - s1.start
  let k := check_keyboard cfg.count s1.current_shader s1.reload_requested inp.events
  if k.exited then
    .exited { s1 with current_shader := k.cur, reload_requested := k.rel }
  else
    let s2 : EngineState :=
      { s1 with current_shader := k.cur, reload_requested := k.rel }
    let ubo : UBO := ⟨(cfg.W, cfg.H, 1), t, (0, 0, 0, 0)⟩
    let scan2 := if inp.mapOk
      then copyRows cfg.W cfg.rtPitch inp.gbmStride inp.surface s2.scanout cfg.H
      else s2.scanout
    .frame { s2 with scanout := scan2, frames := s2.frames + 1 } ubo

/-- One pass through the `while(1)` body (lines 538-659). -/
def iterStep (cfg : EngineConfig) (s0 : EngineState) (inp : FrameInput) :
    IterOutcome :=
  if s0.reload_requested || s0.pipelineH.isNone then
    let r := reloadPhase s0 inp
    if r.2 then framePhase cfg r.1 inp else .retry r.1
  else framePhase cfg s0 inp

/-- The state carried out of an iteration. -/
def stateOf : IterOutcome → EngineState
  | .exited s => s
  | .retry s => s
  | .frame s _ => s

/-- Whether the iteration submitted a command buffer to the device queue
(lines 638-641): only full `frame` passes do. -/
def submits : IterOutcome → Bool
  | .frame _ _ => true
  | _ => false

/-- Whether the iteration ended in the failed-load `sleep(1); continue`
path. -/
def isRetry : IterOutcome → Bool
  | .retry _ => true
  | _ => false

/-- Whether the iteration reached `exit(0)`. -/
def isExited : IterOutcome → Bool
  | .exited _ => true
  | _ => false

/-- Loop invariant for C10: whenever the reload flag is clear and a pipeline
handle is present, that pipeline was built for the currently selected
index. -/
def IndexPipelineInv (s : EngineState) : Prop :=
  s.reload_requested = false → s.pipelineH.isSome = true →
    s.builtFor = some s.current_shader

end Metalshader

/-! ## Theorems -/

namespace Metalshader

/-! ## Index-stepping arithmetic lemmas -/

theorem tmod_eq_emod_of_nonneg {a b : Int} (ha : 0 ≤ a) (hb : 0 ≤ b) :
    a.tmod b = a % b := Int.tmod_eq_emod ha hb

theorem nextIndex_eq_emod {count i : Int} (hc : 0 < count) (hi : 0 ≤ i) :
    nextIndex count i = (i + 1) % count := by
  unfold nextIndex
  exact tmod_eq_emod_of_nonneg (by omega) (by omega)

theorem prevIndex_eq_emod {count i : Int} (hc : 0 < count) (hi : 0 ≤ i) :
    prevIndex count i = (i - 1 + count) % count := by
  unfold prevIndex
  exact tmod_eq_emod_of_nonneg (by omega) (by omega)

theorem nextIndex_iterate {count : Int} (hc : 0 < count) :
    ∀ (n : Nat) (i : Int), 0 ≤ i → i < count →
      (nextIndex count)^[n] i = (i + n) % count := by
  intro n
  induction n with
  | zero =>
    intro i h0 h1
    simp [Int.emod_eq_of_lt h0 h1]
  | succ m ih =>
    intro i h0 h1
    rw [Function.iterate_succ_apply', ih i h0 h1]
    have hnn : 0 ≤ (i + (m : Int)) % count := Int.emod_nonneg _ (by omega)
    rw [nextIndex_eq_emod hc hnn, Int.emod_add_emod]
    push_cast
    ring_nf

theorem prevIndex_iterate {count : Int} (hc : 0 < count) :
    ∀ (n : Nat) (i : Int), 0 ≤ i → i < count →
      (prevIndex count)^[n] i = (i + n * (count - 1)) % count := by
  intro n
  induction n with
  | zero =>
    intro i h0 h1
    simp [Int.emod_eq_of_lt h0 h1]
  | succ m ih =>
    intro i h0 h1
    rw [Function.iterate_succ_apply', ih i h0 h1]
    have hnn : 0 ≤ (i + (m : Int) * (count - 1)) % count := Int.emod_nonneg _ (by omega)
    rw [prevIndex_eq_emod hc hnn]
    have : (i + (m : Int) * (count - 1)) % count - 1 + count
        = (i + (m : Int) * (count - 1)) % count + (count - 1) := by ring
    rw [this, Int.emod_add_emod]
    push_cast
    ring_nf

/-- C2: in `check_keyboard`, a KEY_LEFT press maps index `i` to
`(i - 1 + N) % N` and a KEY_RIGHT press maps it to `(i + 1) % N`, each also
setting `reload_requested`; `N` consecutive next (resp. previous) steps from
any start index in `[0, N)` return to the start index. -/
theorem C2_index_stepping (N i : Int) (r : Bool) (hN : 0 < N)
    (h0 : 0 ≤ i) (h1 : i < N) :
    (check_keyboard N i r [⟨EV_KEY, KEY_LEFT, 1⟩]
      = ⟨(i - 1 + N) % N, true, false, []⟩) ∧
    (check_keyboard N i r [⟨EV_KEY, KEY_RIGHT, 1⟩]
      = ⟨(i + 1) % N, true, false, []⟩) ∧
    (nextIndex N)^[N.toNat] i = i ∧
    (prevIndex N)^[N.toNat] i = i := by
  refine ⟨?_, ?_, ?_, ?_⟩
  · simp [check_keyboard, EV_KEY, KEY_LEFT, KEY_RIGHT, KEY_F, KEY_ESC, KEY_Q,
      prevIndex_eq_emod hN h0]
  · simp [check_keyboard, EV_KEY, KEY_LEFT, KEY_RIGHT, KEY_F, KEY_ESC, KEY_Q,
      nextIndex_eq_emod hN h0]
  · rw [nextIndex_iterate hN _ i h0 h1]
    have h2 : (i + (N.toNat : Int)) = i + N * 1 := by
      rw [Int.toNat_of_nonneg hN.le]; ring
    rw [h2, Int.add_mul_emod_self_left]
    exact Int.emod_eq_of_lt h0 h1
  · rw [prevIndex_iterate hN _ i h0 h1]
    have h2 : i + (N.toNat : Int) * (N - 1) = i + N * (N - 1) := by
      rw [Int.toNat_of_nonneg hN.le]
    rw [h2, Int.add_mul_emod_self_left]
    exact Int.emod_eq_of_lt h0 h1

/-- C2 witness: concrete check at `N = 3`, `i = 1`. -/
theorem C2_index_stepping_witness :
    (check_keyboard 3 1 false [⟨EV_KEY, KEY_LEFT, 1⟩]
      = ⟨(1 - 1 + 3 : Int) % 3, true, false, []⟩) ∧
    (check_keyboard 3 1 false [⟨EV_KEY, KEY_RIGHT, 1⟩]
      = ⟨(1 + 1 : Int) % 3, true, false, []⟩) ∧
    (nextIndex 3)^[(3 : Int).toNat] 1 = 1 ∧
    (prevIndex 3)^[(3 : Int).toNat] 1 = 1 :=
  C2_index_stepping 3 1 false (by decide) (by decide) (by decide)

end Metalshader

namespace Metalshader

theorem check_keyboard_cons (count cur : Int) (rel : Bool) (ev : InputEvent)
    (rest : List InputEvent) :
    check_keyboard count cur rel (ev :: rest) =
      if ev.type ≠ EV_KEY ∨ ev.value ≠ 1 then
        check_keyboard count cur rel rest
      else if ev.code = KEY_LEFT then
        check_keyboard count (prevIndex count cur) true rest
      else if ev.code = KEY_RIGHT then
        check_keyboard count (nextIndex count cur) true rest
      else if ev.code = KEY_F then
        check_keyboard count cur rel rest
      else if ev.code = KEY_ESC ∨ ev.code = KEY_Q then
        ⟨cur, rel, true, rest⟩
      else
        check_keyboard count cur rel rest := rfl

namespace C7aux

theorem drain_no_exit (count : Int) :
    ∀ (evs : List InputEvent) (cur : Int) (rel : Bool),
      (∀ ev ∈ evs, ¬ isExitPress ev) →
      (check_keyboard count cur rel evs).remaining = [] ∧
      (check_keyboard count cur rel evs).exited = false := by
  intro evs
  induction evs with
  | nil => intro cur rel _; constructor <;> rfl
  | cons ev rest ih =>
    intro cur rel h
    have hev : ¬ isExitPress ev := h ev (by simp)
    have hrest : ∀ e ∈ rest, ¬ isExitPress e := fun e he => h e (by simp [he])
    rw [check_keyboard_cons]
    split_ifs with h1 h2 h3 h4 h5
    · exact ih _ _ hrest
    · exact ih _ _ hrest
    · exact ih _ _ hrest
    · exact ih _ _ hrest
    · push_neg at h1
      exact absurd ⟨h1.1, h1.2, h5⟩ hev
    · exact ih _ _ hrest

theorem skip_non_press (count cur : Int) (rel : Bool) (ev : InputEvent)
    (rest : List InputEvent) (h : ev.type ≠ EV_KEY ∨ ev.value ≠ 1) :
    check_keyboard count cur rel (ev :: rest) = check_keyboard count cur rel rest := by
  rw [check_keyboard_cons, if_pos h]

theorem skip_other_code (count cur : Int) (rel : Bool) (ev : InputEvent)
    (rest : List InputEvent) (ht : ev.type = EV_KEY) (hv : ev.value = 1)
    (hcode : ev.code ∉ [KEY_LEFT, KEY_RIGHT, KEY_F, KEY_ESC, KEY_Q]) :
    check_keyboard count cur rel (ev :: rest) = check_keyboard count cur rel rest := by
  simp only [List.mem_cons, List.mem_singleton, List.not_mem_nil] at hcode
  push_neg at hcode
  rw [check_keyboard_cons]
  split_ifs with h1 h2 h3 h4 h5
  · rfl
  · exact absurd h2 hcode.1
  · exact absurd h3 hcode.2.1
  · rfl
  · rcases h5 with h5 | h5
    · exact absurd h5 hcode.2.2.2.1
    · exact absurd h5 hcode.2.2.2.2.1
  · rfl

end C7aux

/-- C7: one call to `check_keyboard` consumes every queued event before
returning (whenever no exit-key press is queued, in which case the call
returns at all); events that are not key presses with `value == 1` are
skipped with no effect; and key-press events whose code is not one of
previous / next / display-toggle / exit leave the runtime state exactly as
if the event had not been queued. -/
theorem C7_input_poll (count cur : Int) (rel : Bool)
    (evs rest : List InputEvent) (ev : InputEvent) :
    ((∀ e ∈ evs, ¬ isExitPress e) →
      (check_keyboard count cur rel evs).remaining = [] ∧
      (check_keyboard count cur rel evs).exited = false) ∧
    ((ev.type ≠ EV_KEY ∨ ev.value ≠ 1) →
      check_keyboard count cur rel (ev :: rest)
        = check_keyboard count cur rel rest) ∧
    (ev.type = EV_KEY → ev.value = 1 →
      ev.code ∉ [KEY_LEFT, KEY_RIGHT, KEY_F, KEY_ESC, KEY_Q] →
      check_keyboard count cur rel (ev :: rest)
        = check_keyboard count cur rel rest) :=
  ⟨C7aux.drain_no_exit count evs cur rel,
   C7aux.skip_non_press count cur rel ev rest,
   C7aux.skip_other_code count cur rel ev rest⟩

/-- C7 witness: a queue holding a display-toggle press, a key release and an
unmapped key press is fully drained with no state change. -/
theorem C7_input_poll_witness :
    ((∀ e ∈ [(⟨EV_KEY, KEY_F, 1⟩ : InputEvent), ⟨EV_KEY, KEY_LEFT, 0⟩],
        ¬ isExitPress e) →
      (check_keyboard 2 0 false
          [(⟨EV_KEY, KEY_F, 1⟩ : InputEvent), ⟨EV_KEY, KEY_LEFT, 0⟩]).remaining = [] ∧
      (check_keyboard 2 0 false
          [(⟨EV_KEY, KEY_F, 1⟩ : InputEvent), ⟨EV_KEY, KEY_LEFT, 0⟩]).exited = false) ∧
    (((⟨4, 2, 1⟩ : InputEvent).type ≠ EV_KEY ∨ (⟨4, 2, 1⟩ : InputEvent).value ≠ 1) →
      check_keyboard 2 0 false [⟨4, 2, 1⟩] = check_keyboard 2 0 false []) ∧
    ((⟨4, 2, 1⟩ : InputEvent).type = EV_KEY → (⟨4, 2, 1⟩ : InputEvent).value = 1 →
      (⟨4, 2, 1⟩ : InputEvent).code ∉ [KEY_LEFT, KEY_RIGHT, KEY_F, KEY_ESC, KEY_Q] →
      check_keyboard 2 0 false [⟨4, 2, 1⟩] = check_keyboard 2 0 false []) :=
  C7_input_poll 2 0 false [⟨EV_KEY, KEY_F, 1⟩, ⟨EV_KEY, KEY_LEFT, 0⟩] [] ⟨4, 2, 1⟩

end Metalshader

namespace Metalshader

theorem copyRows_read (W pSrc pDst : Nat) (src dst : Nat → Nat)
    (hDst : W * 4 ≤ pDst) :
    ∀ (h y x : Nat), y < h → x < W * 4 →
      copyRows W pSrc pDst src dst h (y * pDst + x) = src (y * pSrc + x) := by
  intro h
  induction h with
  | zero => intro y x hy _; omega
  | succ g ih =>
    intro y x hy hx
    by_cases hyg : y = g
    · subst hyg
      have hin : y * pDst ≤ y * pDst + x ∧ y * pDst + x < y * pDst + W * 4 := by omega
      simp only [copyRows, copyRow, if_pos hin]
      congr 1
      omega
    · have hylt : y < g := by omega
      have hout : ¬ (g * pDst ≤ y * pDst + x ∧ y * pDst + x < g * pDst + W * 4) := by
        have : (y + 1) * pDst ≤ g * pDst := Nat.mul_le_mul_right pDst (by omega)
        have : y * pDst + x < g * pDst := by
          have hstep : y * pDst + W * 4 ≤ y * pDst + pDst := by omega
          calc y * pDst + x < y * pDst + W * 4 := by omega
            _ ≤ (y + 1) * pDst := by rw [Nat.succ_mul]; omega
            _ ≤ g * pDst := by assumption
        omega
      simp only [copyRows, copyRow, if_neg hout]
      exact ih y x hylt hx

end Metalshader

namespace Metalshader

/-- C5:
for any render-surface row pitch `pSrc` and scanout row stride `pDst`, each
at least `W * 4` bytes, the per-frame copy puts, for every row `y < H` and
byte `x < W * 4` of that row, the source byte at offset `y * pSrc + x` at
destination offset `y * pDst + x`: the visible `W x H` content of the
scanout buffer equals the render-surface content whether or not the two
strides agree. -/
theorem C5_row_copy (W H pSrc pDst : Nat) (src dst : Nat → Nat)
    (hSrc : W * 4 ≤ pSrc) (hDst : W * 4 ≤ pDst)
    (y x : Nat) (hy : y < H) (hx : x < W * 4) :
    copyRows W pSrc pDst src dst H (y * pDst + x) = src (y * pSrc + x) :=
  copyRows_read W pSrc pDst src dst hDst H y x hy hx

/-- C5 witness: a 2x2 image, source pitch 8 and destination stride 11,
checked at row 1, byte 5 with an offset-valued source memory. -/
theorem C5_row_copy_witness :
    copyRows 2 8 11 (fun a => a) (fun _ => 0) 2 (1 * 11 + 5) = (fun a => a) (1 * 8 + 5) :=
  C5_row_copy 2 2 8 11 (fun a => a) (fun _ => 0) (by decide) (by decide)
    1 5 (by decide) (by decide)

end Metalshader


namespace Metalshader

/-- C4: the graphics-pipeline construction parameters other than the two
shader-stage modules are fixed literals - no vertex input bindings,
triangle-list topology, one color attachment, no depth/stencil, no
blending, viewport and scissor equal to the full display extent - so the
pipeline shape is identical for any two programs (any two pairs of module
handles), and every frame draws 6 vertices and 1 instance. -/
theorem C4_pipeline_shape (W H vm fm vm2 fm2 : Nat) :
    shapeOf (makePipelineDesc W H vm fm) = shapeOf (makePipelineDesc W H vm2 fm2) ∧
    (makePipelineDesc W H vm fm).vertexBindingCount = 0 ∧
    (makePipelineDesc W H vm fm).vertexAttributeCount = 0 ∧
    (makePipelineDesc W H vm fm).topology = Topology.triangleList ∧
    (makePipelineDesc W H vm fm).viewportCount = 1 ∧
    (makePipelineDesc W H vm fm).viewport = ⟨0, 0, W, H, 0, 1⟩ ∧
    (makePipelineDesc W H vm fm).scissorCount = 1 ∧
    (makePipelineDesc W H vm fm).scissor = ⟨0, 0, W, H⟩ ∧
    (makePipelineDesc W H vm fm).colorAttachmentCount = 1 ∧
    (makePipelineDesc W H vm fm).depthStencil = none ∧
    (makePipelineDesc W H vm fm).blendEnable = false ∧
    drawArgs = (6, 1, 0, 0) := by
  refine ⟨rfl, rfl, rfl, rfl, rfl, rfl, rfl, rfl, rfl, rfl, rfl, rfl⟩

end Metalshader
namespace Metalshader

theorem scan_shaders_cons (ex : String → Bool) (dir : String) (e : DirEnt)
    (rest : List DirEnt) (acc : List ShaderInfo) :
    scan_shaders ex dir (e :: rest) acc =
      if acc.length ≥ MAX_SHADERS then acc
      else if e.isReg = false then scan_shaders ex dir rest acc
      else
        match lastDotSplit e.dname with
        | none => scan_shaders ex dir rest acc
        | some (base, ext) =>
          if ext ≠ ".frag" then scan_shaders ex dir rest acc
          else if base.length ≥ 256 then scan_shaders ex dir rest acc
          else if ex (dir ++ "/" ++ base ++ ".vert.spv")
                  && ex (dir ++ "/" ++ base ++ ".frag.spv") then
            scan_shaders ex dir rest (acc ++ [mkInfo dir base])
          else scan_shaders ex dir rest acc := rfl

theorem skip_step {α : Type _} {e : α} {rest : List α} {P : α → Prop} {Q R : Prop}
    (hiff : R ↔ Q ∨ ∃ x ∈ rest, P x) (hno : ¬ P e) :
    R ↔ Q ∨ ∃ x ∈ e :: rest, P x := by
  rw [hiff]
  constructor
  · rintro (h | ⟨x, hx, hh⟩)
    · exact Or.inl h
    · exact Or.inr ⟨x, List.mem_cons_of_mem _ hx, hh⟩
  · rintro (h | ⟨x, hx, hh⟩)
    · exact Or.inl h
    · rcases List.mem_cons.mp hx with rfl | hx
      · exact absurd hh hno
      · exact Or.inr ⟨x, hx, hh⟩

theorem scan_shaders_mem (ex : String → Bool) (dir : String) :
    ∀ (entries : List DirEnt) (acc : List ShaderInfo),
      acc.length + entries.length ≤ MAX_SHADERS →
      ∀ info, (info ∈ scan_shaders ex dir entries acc ↔
        info ∈ acc ∨ ∃ e ∈ entries, entryHit ex dir e info) := by
  intro entries
  induction entries with
  | nil =>
    intro acc hcap info
    simp [scan_shaders]
  | cons e rest ih =>
    intro acc hcap info
    have hcap' : acc.length + rest.length ≤ MAX_SHADERS := by
      simp only [List.length_cons] at hcap; omega
    have hnotfull : ¬ acc.length ≥ MAX_SHADERS := by
      simp only [List.length_cons] at hcap; omega
    rw [scan_shaders_cons, if_neg hnotfull]
    by_cases hreg : e.isReg = false
    · rw [if_pos hreg]
      refine skip_step (ih acc hcap' info) ?_
      rintro ⟨hr, _⟩
      rw [hreg] at hr
      cases hr
    · rw [if_neg hreg]
      rcases hsplit : lastDotSplit e.dname with _ | ⟨base, ext⟩
      · dsimp only
        refine skip_step (ih acc hcap' info) ?_
        rintro ⟨_, base2, hsp, _⟩
        rw [hsplit] at hsp
        cases hsp
      · dsimp only
        by_cases hext : ext ≠ ".frag"
        · rw [if_pos hext]
          refine skip_step (ih acc hcap' info) ?_
          rintro ⟨_, base2, hsp, _⟩
          rw [hsplit] at hsp
          simp only [Option.some.injEq, Prod.mk.injEq] at hsp
          exact hext hsp.2
        · rw [if_neg hext]
          push_neg at hext
          subst hext
          by_cases hlen : base.length ≥ 256
          · rw [if_pos hlen]
            refine skip_step (ih acc hcap' info) ?_
            rintro ⟨_, base2, hsp, hl2, _⟩
            rw [hsplit] at hsp
            simp only [Option.some.injEq, Prod.mk.injEq] at hsp
            rw [← hsp.1] at hl2
            omega
          · rw [if_neg hlen]
            by_cases hex : ex (dir ++ "/" ++ base ++ ".vert.spv")
                && ex (dir ++ "/" ++ base ++ ".frag.spv")
            · rw [if_pos hex]
              simp only [Bool.and_eq_true] at hex
              have hhit : entryHit ex dir e (mkInfo dir base) :=
                ⟨by revert hreg; cases e.isReg <;> simp,
                 base, hsplit, by omega, hex.1, hex.2, rfl⟩
              have huniq : ∀ i2, entryHit ex dir e i2 → i2 = mkInfo dir base := by
                rintro i2 ⟨_, base2, hsp, _, _, _, hi⟩
                rw [hsplit] at hsp
                simp only [Option.some.injEq, Prod.mk.injEq] at hsp
                rw [hi, hsp.1]
              have hcap2 : (acc ++ [mkInfo dir base]).length + rest.length
                  ≤ MAX_SHADERS := by
                simp only [List.length_append, List.length_cons,
                  List.length_nil, List.length_cons] at hcap ⊢
                omega
              rw [ih (acc ++ [mkInfo dir base]) hcap2 info]
              simp only [List.mem_append, List.mem_singleton]
              constructor
              · rintro ((h | h) | ⟨x, hx, hh⟩)
                · exact Or.inl h
                · exact Or.inr ⟨e, List.mem_cons_self _ _, h ▸ hhit⟩
                · exact Or.inr ⟨x, List.mem_cons_of_mem _ hx, hh⟩
              · rintro (h | ⟨x, hx, hh⟩)
                · exact Or.inl (Or.inl h)
                · rcases List.mem_cons.mp hx with rfl | hx
                  · exact Or.inl (Or.inr (huniq info hh))
                  · exact Or.inr ⟨x, hx, hh⟩
            · rw [if_neg hex]
              refine skip_step (ih acc hcap' info) ?_
              rintro ⟨_, base2, hsp, _, hv, hf, _⟩
              rw [hsplit] at hsp
              simp only [Option.some.injEq, Prod.mk.injEq] at hsp
              rw [← hsp.1] at hv hf
              rw [hv, hf] at hex
              simp at hex

end Metalshader

namespace Metalshader

/-- C6 counterexample: a search location whose directory listing holds the
two compiled binaries `x.vert.spv` and `x.frag.spv` as regular files - and
whose existence oracle confirms both - yields an empty registry, because
`scan_shaders` only considers entries named `<base>.frag`; so the presence
of both compiled binaries in a search location is not sufficient for
eligibility, refuting the claim's "if and only if". -/
theorem C6_counterexample :
    (fun p => p = "./x.vert.spv" || p = "./x.frag.spv") "./x.vert.spv" = true ∧
    (fun p => p = "./x.vert.spv" || p = "./x.frag.spv") "./x.frag.spv" = true ∧
    scan_all_shaders (fun p => p = "./x.vert.spv" || p = "./x.frag.spv")
      (fun d => if d = "." then
          [⟨"x.vert.spv", true⟩, ⟨"x.frag.spv", true⟩] else [])
      = [] := by
  refine ⟨by decide, by decide, by decide⟩

/-- C6 amended: a registry entry is produced from a search location exactly
when the location's listing has a regular file `<name>.frag` (name split at
its last dot, `name` shorter than 256 characters) and both compiled
binaries `<name>.vert.spv` and `<name>.frag.spv` exist in that location
(subject to the 256-entry registry cap); and an empty discovery result is
reported by startup as "no programs available" (exit path), not as an
internal error. -/
theorem C6_amended_eligibility (ex : String → Bool) (dir : String)
    (entries : List DirEnt) (acc : List ShaderInfo) (info : ShaderInfo)
    (listing : String → List DirEnt) (argv : List String)
    (hcap : acc.length + entries.length ≤ MAX_SHADERS) :
    (info ∈ scan_shaders ex dir entries acc ↔
      info ∈ acc ∨ ∃ e ∈ entries, entryHit ex dir e info) ∧
    (scan_all_shaders ex listing = [] →
      startup ex listing argv = StartupResult.noPrograms) := by
  refine ⟨scan_shaders_mem ex dir entries acc hcap info, ?_⟩
  intro h
  simp [startup, h]

/-- C6 amended witness: one `x.frag` listing entry with both binaries
present produces the registry entry for `x`; an empty scan reports no
programs. -/
theorem C6_amended_eligibility_witness :
    ((mkInfo "." "x") ∈ scan_shaders
        (fun p => p = "./x.vert.spv" || p = "./x.frag.spv") "."
        [⟨"x.frag", true⟩] [] ↔
      (mkInfo "." "x") ∈ ([] : List ShaderInfo) ∨
        ∃ e ∈ [(⟨"x.frag", true⟩ : DirEnt)],
          entryHit (fun p => p = "./x.vert.spv" || p = "./x.frag.spv") "." e
            (mkInfo "." "x")) ∧
    (scan_all_shaders (fun p => p = "./x.vert.spv" || p = "./x.frag.spv")
        (fun _ => []) = [] →
      startup (fun p => p = "./x.vert.spv" || p = "./x.frag.spv")
        (fun _ => []) [] = StartupResult.noPrograms) :=
  C6_amended_eligibility (fun p => p = "./x.vert.spv" || p = "./x.frag.spv")
    "." [⟨"x.frag", true⟩] [] (mkInfo "." "x") (fun _ => []) [] (by decide)

end Metalshader

namespace Metalshader

/-! ### Engine-step helper lemmas -/

theorem destroyOld_current (s : EngineState) :
    (destroyOld s).current_shader = s.current_shader := by
  obtain ⟨c, r, p, v, f, b, l, d, n, st, fr, sc⟩ := s
  cases p <;> cases v <;> cases f <;> simp [destroyOld, destroyHandle]

theorem destroyOld_reload (s : EngineState) :
    (destroyOld s).reload_requested = s.reload_requested := by
  obtain ⟨c, r, p, v, f, b, l, d, n, st, fr, sc⟩ := s
  cases p <;> cases v <;> cases f <;> simp [destroyOld, destroyHandle]

theorem destroyOld_pipelineH (s : EngineState) :
    (destroyOld s).pipelineH = s.pipelineH := by
  obtain ⟨c, r, p, v, f, b, l, d, n, st, fr, sc⟩ := s
  cases p <;> cases v <;> cases f <;> simp [destroyOld, destroyHandle]

theorem destroyOld_builtFor (s : EngineState) :
    (destroyOld s).builtFor = s.builtFor := by
  obtain ⟨c, r, p, v, f, b, l, d, n, st, fr, sc⟩ := s
  cases p <;> cases v <;> cases f <;> simp [destroyOld, destroyHandle]

theorem destroyOld_start (s : EngineState) :
    (destroyOld s).start = s.start := by
  obtain ⟨c, r, p, v, f, b, l, d, n, st, fr, sc⟩ := s
  cases p <;> cases v <;> cases f <;> simp [destroyOld, destroyHandle]

theorem destroyOld_scanout (s : EngineState) :
    (destroyOld s).scanout = s.scanout := by
  obtain ⟨c, r, p, v, f, b, l, d, n, st, fr, sc⟩ := s
  cases p <;> cases v <;> cases f <;> simp [destroyOld, destroyHandle]

theorem iterStep_needs_fail (cfg : EngineConfig) (s : EngineState) (inp : FrameInput)
    (h : (s.reload_requested || s.pipelineH.isNone) = true)
    (hl : inp.loadOk = false) :
    iterStep cfg s inp = .retry (destroyOld s) := by
  simp [iterStep, h, reloadPhase, hl]

theorem iterStep_needs_ok (cfg : EngineConfig) (s : EngineState) (inp : FrameInput)
    (h : (s.reload_requested || s.pipelineH.isNone) = true)
    (hl : inp.loadOk = true) :
    iterStep cfg s inp = framePhase cfg (reloadSuccState s inp) inp := by
  simp [iterStep, h, reloadPhase, hl]

theorem iterStep_ready (cfg : EngineConfig) (s : EngineState) (inp : FrameInput)
    (h : (s.reload_requested || s.pipelineH.isNone) = false) :
    iterStep cfg s inp = framePhase cfg s inp := by
  simp [iterStep, h]

theorem framePhase_exited (cfg : EngineConfig) (s1 : EngineState) (inp : FrameInput)
    (h : (check_keyboard cfg.count s1.current_shader s1.reload_requested inp.events).exited
      = true) :
    framePhase cfg s1 inp = .exited
      { s1 with
        current_shader :=
          (check_keyboard cfg.count s1.current_shader s1.reload_requested inp.events).cur
        reload_requested :=
          (check_keyboard cfg.count s1.current_shader s1.reload_requested inp.events).rel } := by
  simp [framePhase, h]

theorem framePhase_not_exited (cfg : EngineConfig) (s1 : EngineState) (inp : FrameInput)
    (h : (check_keyboard cfg.count s1.current_shader s1.reload_requested inp.events).exited
      = false) :
    framePhase cfg s1 inp = .frame
      { s1 with
        current_shader :=
          (check_keyboard cfg.count s1.current_shader s1.reload_requested inp.events).cur
        reload_requested :=
          (check_keyboard cfg.count s1.current_shader s1.reload_requested inp.events).rel
        scanout := if inp.mapOk
          then copyRows cfg.W cfg.rtPitch inp.gbmStride inp.surface s1.scanout cfg.H
          else s1.scanout
        frames := s1.frames + 1 }
      ⟨(cfg.W, cfg.H, 1), inp.now - s1.start, (0, 0, 0, 0)⟩ := by
  simp [framePhase, h]

theorem check_keyboard_rel_mono (count : Int) :
    ∀ (evs : List InputEvent) (cur : Int),
      (check_keyboard count cur true evs).rel = true := by
  intro evs
  induction evs with
  | nil => intro cur; rfl
  | cons ev rest ih =>
    intro cur
    rw [check_keyboard_cons]
    split_ifs with h1 h2 h3 h4 h5
    · exact ih cur
    · exact ih _
    · exact ih _
    · exact ih cur
    · rfl
    · exact ih cur

theorem check_keyboard_rel_of_cur_change (count : Int) :
    ∀ (evs : List InputEvent) (cur : Int) (rel : Bool),
      (check_keyboard count cur rel evs).cur ≠ cur →
      (check_keyboard count cur rel evs).rel = true := by
  intro evs
  induction evs with
  | nil => intro cur rel h; exact absurd rfl h
  | cons ev rest ih =>
    intro cur rel h
    rw [check_keyboard_cons] at h ⊢
    split_ifs at h ⊢ with h1 h2 h3 h4 h5
    · exact ih cur rel h
    · exact check_keyboard_rel_mono count rest _
    · exact check_keyboard_rel_mono count rest _
    · exact ih cur rel h
    · exact absurd rfl h
    · exact ih cur rel h

theorem check_keyboard_exit_in_queue (count : Int) :
    ∀ (evs : List InputEvent) (cur : Int) (rel : Bool),
      (∃ ev ∈ evs, isExitPress ev) →
      (check_keyboard count cur rel evs).exited = true := by
  intro evs
  induction evs with
  | nil => rintro cur rel ⟨ev, h, _⟩; cases h
  | cons ev rest ih =>
    intro cur rel hex
    rw [check_keyboard_cons]
    by_cases hev : isExitPress ev
    · obtain ⟨ht, hv, hc⟩ := hev
      have h1 : ¬(ev.type ≠ EV_KEY ∨ ev.value ≠ 1) := by push_neg; exact ⟨ht, hv⟩
      have h2 : ¬(ev.code = KEY_LEFT) := by
        rcases hc with h | h <;> rw [h] <;> decide
      have h3 : ¬(ev.code = KEY_RIGHT) := by
        rcases hc with h | h <;> rw [h] <;> decide
      have h4 : ¬(ev.code = KEY_F) := by
        rcases hc with h | h <;> rw [h] <;> decide
      rw [if_neg h1, if_neg h2, if_neg h3, if_neg h4, if_pos hc]
    · obtain ⟨ev2, hmem, hex2⟩ := hex
      rcases List.mem_cons.mp hmem with rfl | hmem2
      · exact absurd hex2 hev
      · have hrest : ∃ e ∈ rest, isExitPress e := ⟨ev2, hmem2, hex2⟩
        split_ifs with h1 h2 h3 h4 h5
        · exact ih _ _ hrest
        · exact ih _ _ hrest
        · exact ih _ _ hrest
        · exact ih _ _ hrest
        · rfl
        · exact ih _ _ hrest

theorem check_keyboard_nil (count cur : Int) (rel : Bool) :
    check_keyboard count cur rel [] = ⟨cur, rel, false, []⟩ := rfl

theorem framePhase_scanout (cfg : EngineConfig) (s1 : EngineState) (inp : FrameInput)
    (hmap : inp.mapOk = false) :
    (stateOf (framePhase cfg s1 inp)).scanout = s1.scanout := by
  by_cases hk : (check_keyboard cfg.count s1.current_shader s1.reload_requested
      inp.events).exited = true
  · rw [framePhase_exited cfg s1 inp hk]
    rfl
  · rw [framePhase_not_exited cfg s1 inp (by simpa using hk)]
    simp [stateOf, hmap]

theorem framePhase_start_time (cfg : EngineConfig) (s1 : EngineState) (inp : FrameInput) :
    (stateOf (framePhase cfg s1 inp)).start = s1.start ∧
    ∀ s2 u, framePhase cfg s1 inp = IterOutcome.frame s2 u →
      u.iTime = inp.now - s1.start ∧ s2.start = s1.start := by
  by_cases hk : (check_keyboard cfg.count s1.current_shader s1.reload_requested
      inp.events).exited = true
  · rw [framePhase_exited cfg s1 inp hk]
    exact ⟨rfl, fun s2 u h => by cases h⟩
  · rw [framePhase_not_exited cfg s1 inp (by simpa using hk)]
    refine ⟨rfl, fun s2 u h => ?_⟩
    injection h with h1 h2
    subst h1; subst h2
    exact ⟨rfl, rfl⟩

theorem framePhase_frame_of_no_exit (cfg : EngineConfig) (s1 : EngineState)
    (inp : FrameInput) (hne : ∀ ev ∈ inp.events, ¬ isExitPress ev) :
    ∃ s2 u, framePhase cfg s1 inp = IterOutcome.frame s2 u := by
  have hk := (C7aux.drain_no_exit cfg.count inp.events s1.current_shader
    s1.reload_requested hne).2
  rw [framePhase_not_exited cfg s1 inp hk]
  exact ⟨_, _, rfl⟩

theorem reloadSuccState_fields (s : EngineState) (inp : FrameInput) :
    (reloadSuccState s inp).current_shader = s.current_shader ∧
    (reloadSuccState s inp).reload_requested = false ∧
    (reloadSuccState s inp).builtFor = some s.current_shader ∧
    (reloadSuccState s inp).start = inp.nowR ∧
    (reloadSuccState s inp).scanout = s.scanout := by
  refine ⟨destroyOld_current s, rfl, ?_, rfl, destroyOld_scanout s⟩
  show some (destroyOld s).current_shader = some s.current_shader
  rw [destroyOld_current s]

end Metalshader

namespace Metalshader

/-- C8: whenever the scanout buffer fails to map for a frame (`gbm_bo_map`
returns NULL, lines 646-653), the scanout memory is unchanged by the
iteration; and provided the iteration is not cut short by a queued exit key
or a failed shader load, it still completes as a normal frame, so the main
loop proceeds to its next iteration - the mapping failure is not fatal. -/
theorem C8_map_failure (cfg : EngineConfig) (s : EngineState) (inp : FrameInput)
    (hmap : inp.mapOk = false) :
    (stateOf (iterStep cfg s inp)).scanout = s.scanout ∧
    ((∀ ev ∈ inp.events, ¬ isExitPress ev) →
      ((s.reload_requested || s.pipelineH.isNone) = false ∨ inp.loadOk = true) →
      ∃ s2 u, iterStep cfg s inp = IterOutcome.frame s2 u) := by
  constructor
  · by_cases hneeds : (s.reload_requested || s.pipelineH.isNone) = true
    · by_cases hload : inp.loadOk = true
      · rw [iterStep_needs_ok cfg s inp hneeds hload,
          framePhase_scanout cfg _ inp hmap]
        exact (reloadSuccState_fields s inp).2.2.2.2
      · rw [iterStep_needs_fail cfg s inp hneeds (by simp only [Bool.not_eq_true] at hload; exact hload)]
        exact destroyOld_scanout s
    · rw [iterStep_ready cfg s inp (by simp only [Bool.not_eq_true] at hneeds; exact hneeds)]
      exact framePhase_scanout cfg s inp hmap
  · intro hne hpoll
    by_cases hneeds : (s.reload_requested || s.pipelineH.isNone) = true
    · have hload : inp.loadOk = true := by
        rcases hpoll with h | h
        · rw [hneeds] at h; cases h
        · exact h
      rw [iterStep_needs_ok cfg s inp hneeds hload]
      exact framePhase_frame_of_no_exit cfg _ inp hne
    · rw [iterStep_ready cfg s inp (by simp only [Bool.not_eq_true] at hneeds; exact hneeds)]
      exact framePhase_frame_of_no_exit cfg s inp hne

/-- C8 witness: concrete failed mapping on a ready state with an empty
event queue: the scanout memory is untouched and the iteration still
produces a frame. -/
theorem C8_map_failure_witness :
    (stateOf (iterStep ⟨4, 2, 16, 2⟩
        ⟨0, false, some 2, some 0, some 1, some 0, [0, 1, 2], [], 3, 100, 7, fun _ => 9⟩
        ⟨true, 200, 210, [], fun _ => 0, false, 16⟩)).scanout = (fun _ => 9) ∧
    ∃ s2 u, iterStep ⟨4, 2, 16, 2⟩
        ⟨0, false, some 2, some 0, some 1, some 0, [0, 1, 2], [], 3, 100, 7, fun _ => 9⟩
        ⟨true, 200, 210, [], fun _ => 0, false, 16⟩ = IterOutcome.frame s2 u :=
  ⟨(C8_map_failure ⟨4, 2, 16, 2⟩
      ⟨0, false, some 2, some 0, some 1, some 0, [0, 1, 2], [], 3, 100, 7, fun _ => 9⟩
      ⟨true, 200, 210, [], fun _ => 0, false, 16⟩ rfl).1,
   (C8_map_failure ⟨4, 2, 16, 2⟩
      ⟨0, false, some 2, some 0, some 1, some 0, [0, 1, 2], [], 3, 100, 7, fun _ => 9⟩
      ⟨true, 200, 210, [], fun _ => 0, false, 16⟩ rfl).2
    (by intro ev h; cases h) (Or.inr rfl)⟩

end Metalshader

namespace Metalshader

/-- C3: the `iTime` value written into the per-frame uniform block is the
monotonic-clock delta from the most recent successful pipeline (re)load.
When an iteration performs a successful reload, the epoch `start` is reset
to the reload-instant clock sample, and the uniform written that same
iteration carries the delta from that instant; when no reload happens the
epoch is unchanged and the uniform carries the delta from the stored epoch;
hence over consecutive reload-free frames with a strictly increasing clock
the reported elapsed time strictly increases. -/
theorem C3_elapsed_epoch (cfg : EngineConfig) (s : EngineState)
    (inp inp2 : FrameInput) :
    ((s.reload_requested = true ∨ s.pipelineH = none) → inp.loadOk = true →
      ((stateOf (iterStep cfg s inp)).start = inp.nowR ∧
       ∀ s2 u, iterStep cfg s inp = IterOutcome.frame s2 u →
         u.iTime = inp.now - inp.nowR)) ∧
    (s.reload_requested = false → s.pipelineH.isSome = true →
      ((stateOf (iterStep cfg s inp)).start = s.start ∧
       ∀ s2 u, iterStep cfg s inp = IterOutcome.frame s2 u →
         u.iTime = inp.now - s.start)) ∧
    (∀ s2 u s3 u2,
      s.reload_requested = false → s.pipelineH.isSome = true →
      iterStep cfg s inp = IterOutcome.frame s2 u →
      s2.reload_requested = false → s2.pipelineH.isSome = true →
      iterStep cfg s2 inp2 = IterOutcome.frame s3 u2 →
      s.start ≤ inp.now → inp.now < inp2.now →
      u.iTime < u2.iTime) := by
  have hready : ∀ (s' : EngineState), s'.reload_requested = false →
      s'.pipelineH.isSome = true →
      (s'.reload_requested || s'.pipelineH.isNone) = false := by
    intro s' h1 h2
    rw [h1, Bool.false_or, Option.isNone_eq_false_iff, Option.isSome_iff_exists] at *
    obtain ⟨x, hx⟩ := h2
    rw [hx]
    simp
  refine ⟨?_, ?_, ?_⟩
  · intro hneeds hload
    have hn : (s.reload_requested || s.pipelineH.isNone) = true := by
      rcases hneeds with h | h
      · rw [h, Bool.true_or]
      · rw [h]
        simp
    rw [iterStep_needs_ok cfg s inp hn hload]
    have hf := framePhase_start_time cfg (reloadSuccState s inp) inp
    have hst : (reloadSuccState s inp).start = inp.nowR :=
      (reloadSuccState_fields s inp).2.2.2.1
    exact ⟨by rw [hf.1, hst], fun s2 u h => by
      have := (hf.2 s2 u h).1
      rw [hst] at this
      exact this⟩
  · intro h1 h2
    rw [iterStep_ready cfg s inp (hready s h1 h2)]
    have hf := framePhase_start_time cfg s inp
    exact ⟨hf.1, fun s2 u h => (hf.2 s2 u h).1⟩
  · intro s2 u s3 u2 h1 h2 hit1 h3 h4 hit2 hle hlt
    have hf1 := framePhase_start_time cfg s inp
    rw [iterStep_ready cfg s inp (hready s h1 h2)] at hit1
    have ht1 : u.iTime = inp.now - s.start := (hf1.2 s2 u hit1).1
    have hs2 : s2.start = s.start := (hf1.2 s2 u hit1).2
    have hf2 := framePhase_start_time cfg s2 inp2
    rw [iterStep_ready cfg s2 inp2 (hready s2 h3 h4)] at hit2
    have ht2 : u2.iTime = inp2.now - s2.start := (hf2.2 s3 u2 hit2).1
    rw [ht1, ht2, hs2]
    omega

/-- C3 witness: a ready (no-reload) state with epoch 100 keeps its epoch
through a frame at clock 210, and the uniform block written carries
elapsed time 210 - 100. -/
theorem C3_elapsed_epoch_witness :
    (stateOf (iterStep ⟨4, 2, 16, 2⟩
        ⟨0, false, some 2, some 0, some 1, some 0, [0, 1, 2], [], 3, 100, 7, fun _ => 0⟩
        ⟨true, 200, 210, [], fun _ => 0, true, 16⟩)).start = 100 ∧
    ∀ s2 u, iterStep ⟨4, 2, 16, 2⟩
        ⟨0, false, some 2, some 0, some 1, some 0, [0, 1, 2], [], 3, 100, 7, fun _ => 0⟩
        ⟨true, 200, 210, [], fun _ => 0, true, 16⟩ = IterOutcome.frame s2 u →
      u.iTime = 210 - 100 :=
  (C3_elapsed_epoch ⟨4, 2, 16, 2⟩
    ⟨0, false, some 2, some 0, some 1, some 0, [0, 1, 2], [], 3, 100, 7, fun _ => 0⟩
    ⟨true, 200, 210, [], fun _ => 0, true, 16⟩
    ⟨true, 250, 260, [], fun _ => 0, true, 16⟩).2.1 rfl rfl

end Metalshader

namespace Metalshader

/-- C9: when an exit-key press is queued, the next input poll acts on it:
the iteration (provided it reaches its poll, which every iteration does
except the failed-load `continue` path, where no poll and no submission
happen either) terminates at the poll, before the iteration's command
buffer is recorded or submitted, so no device submission occurs after the
exit event is observed. -/
theorem C9_exit_before_submit (cfg : EngineConfig) (s : EngineState)
    (inp : FrameInput)
    (hex : ∃ ev ∈ inp.events, isExitPress ev)
    (hpoll : (s.reload_requested || s.pipelineH.isNone) = false ∨ inp.loadOk = true) :
    isExited (iterStep cfg s inp) = true ∧
    submits (iterStep cfg s inp) = false := by
  have hframe : ∀ s1 : EngineState,
      isExited (framePhase cfg s1 inp) = true ∧
      submits (framePhase cfg s1 inp) = false := by
    intro s1
    rw [framePhase_exited cfg s1 inp
      (check_keyboard_exit_in_queue cfg.count inp.events s1.current_shader
        s1.reload_requested hex)]
    exact ⟨rfl, rfl⟩
  by_cases hneeds : (s.reload_requested || s.pipelineH.isNone) = true
  · have hload : inp.loadOk = true := by
      rcases hpoll with h | h
      · rw [hneeds] at h; cases h
      · exact h
    rw [iterStep_needs_ok cfg s inp hneeds hload]
    exact hframe _
  · rw [iterStep_ready cfg s inp (by simp only [Bool.not_eq_true] at hneeds; exact hneeds)]
    exact hframe s

/-- C9 witness: a queued ESC press on a ready state exits without a
submission. -/
theorem C9_exit_before_submit_witness :
    isExited (iterStep ⟨4, 2, 16, 2⟩
      ⟨0, false, some 2, some 0, some 1, some 0, [0, 1, 2], [], 3, 100, 7, fun _ => 0⟩
      ⟨true, 200, 210, [⟨EV_KEY, KEY_ESC, 1⟩], fun _ => 0, true, 16⟩) = true ∧
    submits (iterStep ⟨4, 2, 16, 2⟩
      ⟨0, false, some 2, some 0, some 1, some 0, [0, 1, 2], [], 3, 100, 7, fun _ => 0⟩
      ⟨true, 200, 210, [⟨EV_KEY, KEY_ESC, 1⟩], fun _ => 0, true, 16⟩) = false :=
  C9_exit_before_submit ⟨4, 2, 16, 2⟩
    ⟨0, false, some 2, some 0, some 1, some 0, [0, 1, 2], [], 3, 100, 7, fun _ => 0⟩
    ⟨true, 200, 210, [⟨EV_KEY, KEY_ESC, 1⟩], fun _ => 0, true, 16⟩
    ⟨⟨EV_KEY, KEY_ESC, 1⟩, by simp, by decide⟩ (Or.inr rfl)

end Metalshader

namespace Metalshader

theorem framePhase_preserves_inv (cfg : EngineConfig) (s1 : EngineState)
    (inp : FrameInput) (hinv : IndexPipelineInv s1) :
    IndexPipelineInv (stateOf (framePhase cfg s1 inp)) := by
  have hmain : ∀ (r : EngineState),
      r.current_shader = (check_keyboard cfg.count s1.current_shader
        s1.reload_requested inp.events).cur →
      r.reload_requested = (check_keyboard cfg.count s1.current_shader
        s1.reload_requested inp.events).rel →
      r.pipelineH = s1.pipelineH → r.builtFor = s1.builtFor →
      IndexPipelineInv r := by
    intro r hc hr hp hb hrel hsome
    rw [hr] at hrel
    have hs1rel : s1.reload_requested = false := by
      by_contra h
      rw [Bool.not_eq_false] at h
      rw [h, check_keyboard_rel_mono cfg.count inp.events s1.current_shader] at hrel
      cases hrel
    rw [hs1rel] at hrel
    have hcur : (check_keyboard cfg.count s1.current_shader false
        inp.events).cur = s1.current_shader := by
      by_contra h
      rw [check_keyboard_rel_of_cur_change cfg.count inp.events
        s1.current_shader false h] at hrel
      cases hrel
    rw [hp] at hsome
    rw [hb, hinv hs1rel hsome, hc, hs1rel, hcur]
  by_cases hk : (check_keyboard cfg.count s1.current_shader s1.reload_requested
      inp.events).exited = true
  · rw [framePhase_exited cfg s1 inp hk]
    exact hmain _ rfl rfl rfl rfl
  · rw [framePhase_not_exited cfg s1 inp (by simp only [Bool.not_eq_true] at hk; exact hk)]
    exact hmain _ rfl rfl rfl rfl

theorem framePhase_builtFor (cfg : EngineConfig) (s1 : EngineState)
    (inp : FrameInput) :
    ∀ s2 u, framePhase cfg s1 inp = IterOutcome.frame s2 u →
      s2.builtFor = s1.builtFor := by
  intro s2 u h
  by_cases hk : (check_keyboard cfg.count s1.current_shader s1.reload_requested
      inp.events).exited = true
  · rw [framePhase_exited cfg s1 inp hk] at h
    cases h
  · rw [framePhase_not_exited cfg s1 inp
      (by simp only [Bool.not_eq_true] at hk; exact hk)] at h
    injection h with h1 h2
    subst h1
    rfl

theorem framePhase_cur_no_events (cfg : EngineConfig) (s1 : EngineState)
    (inp : FrameInput) (hev : inp.events = []) :
    (stateOf (framePhase cfg s1 inp)).current_shader = s1.current_shader := by
  have hk : (check_keyboard cfg.count s1.current_shader s1.reload_requested
      inp.events).exited = false := by
    rw [hev, check_keyboard_nil]
  rw [framePhase_not_exited cfg s1 inp hk]
  show (check_keyboard cfg.count s1.current_shader s1.reload_requested inp.events).cur
    = s1.current_shader
  rw [hev, check_keyboard_nil]

/-- C10: (i) any step of the input router that changes the active program
index also sets the reload flag in the same event-handling step; (ii) the
invariant "reload flag clear and pipeline present implies the pipeline was
built for the current index" is preserved by every loop iteration; (iii)
from an invariant state, any frame the loop submits draws with a pipeline
built for the index observed at the top of that iteration; (iv) an
iteration processing no input events never changes the index - the router
is the only mutator. -/
theorem C10_index_reload_invariant (cfg : EngineConfig) (s : EngineState)
    (inp : FrameInput) (count cur : Int) (rel : Bool) (evs : List InputEvent) :
    ((check_keyboard count cur rel evs).cur ≠ cur →
      (check_keyboard count cur rel evs).rel = true) ∧
    (IndexPipelineInv s → IndexPipelineInv (stateOf (iterStep cfg s inp))) ∧
    (IndexPipelineInv s →
      ∀ s2 u, iterStep cfg s inp = IterOutcome.frame s2 u →
        s2.builtFor = some s.current_shader) ∧
    (inp.events = [] →
      (stateOf (iterStep cfg s inp)).current_shader = s.current_shader) := by
  refine ⟨check_keyboard_rel_of_cur_change count evs cur rel, ?_, ?_, ?_⟩
  · intro hinv
    by_cases hneeds : (s.reload_requested || s.pipelineH.isNone) = true
    · by_cases hload : inp.loadOk = true
      · rw [iterStep_needs_ok cfg s inp hneeds hload]
        refine framePhase_preserves_inv cfg _ inp ?_
        intro _ _
        exact (reloadSuccState_fields s inp).2.2.1.trans
          (by rw [(reloadSuccState_fields s inp).1])
      · rw [iterStep_needs_fail cfg s inp hneeds
          (by simp only [Bool.not_eq_true] at hload; exact hload)]
        intro hrel hsome
        simp only [stateOf] at hrel hsome
        rw [destroyOld_reload] at hrel
        rw [destroyOld_pipelineH] at hsome
        rw [hrel, Bool.false_or, Option.isNone_iff_eq_none] at hneeds
        rw [hneeds] at hsome
        cases hsome
    · rw [iterStep_ready cfg s inp
        (by simp only [Bool.not_eq_true] at hneeds; exact hneeds)]
      exact framePhase_preserves_inv cfg s inp hinv
  · intro hinv s2 u hiter
    by_cases hneeds : (s.reload_requested || s.pipelineH.isNone) = true
    · by_cases hload : inp.loadOk = true
      · rw [iterStep_needs_ok cfg s inp hneeds hload] at hiter
        rw [framePhase_builtFor cfg _ inp s2 u hiter]
        exact (reloadSuccState_fields s inp).2.2.1
      · rw [iterStep_needs_fail cfg s inp hneeds
          (by simp only [Bool.not_eq_true] at hload; exact hload)] at hiter
        cases hiter
    · have hready : (s.reload_requested || s.pipelineH.isNone) = false := by
        simp only [Bool.not_eq_true] at hneeds; exact hneeds
      rw [iterStep_ready cfg s inp hready] at hiter
      rw [framePhase_builtFor cfg s inp s2 u hiter]
      have h1 : s.reload_requested = false := by
        rcases Bool.or_eq_false_iff.mp hready with ⟨h, _⟩
        exact h
      have h2 : s.pipelineH.isSome = true := by
        rcases Bool.or_eq_false_iff.mp hready with ⟨_, h⟩
        rw [Option.isNone_eq_false_iff] at h
        exact h
      exact hinv h1 h2
  · intro hev
    by_cases hneeds : (s.reload_requested || s.pipelineH.isNone) = true
    · by_cases hload : inp.loadOk = true
      · rw [iterStep_needs_ok cfg s inp hneeds hload,
          framePhase_cur_no_events cfg _ inp hev]
        exact (reloadSuccState_fields s inp).1
      · rw [iterStep_needs_fail cfg s inp hneeds
          (by simp only [Bool.not_eq_true] at hload; exact hload)]
        exact destroyOld_current s
    · rw [iterStep_ready cfg s inp
        (by simp only [Bool.not_eq_true] at hneeds; exact hneeds)]
      exact framePhase_cur_no_events cfg s inp hev

end Metalshader

namespace Metalshader

/-- C10 witness: a next-key press sets the reload flag; a concrete invariant
state stays invariant through an iteration; with no events the index is
unchanged. -/
theorem C10_index_reload_invariant_witness :
    (check_keyboard 2 0 false [⟨EV_KEY, KEY_RIGHT, 1⟩]).rel = true ∧
    IndexPipelineInv (stateOf (iterStep ⟨4, 2, 16, 2⟩
      ⟨0, false, some 2, some 0, some 1, some 0, [0, 1, 2], [], 3, 100, 7, fun _ => 0⟩
      ⟨true, 200, 210, [], fun _ => 0, true, 16⟩)) ∧
    (stateOf (iterStep ⟨4, 2, 16, 2⟩
      ⟨0, false, some 2, some 0, some 1, some 0, [0, 1, 2], [], 3, 100, 7, fun _ => 0⟩
      ⟨true, 200, 210, [], fun _ => 0, true, 16⟩)).current_shader = 0 :=
  ⟨(C10_index_reload_invariant ⟨4, 2, 16, 2⟩
      ⟨0, false, some 2, some 0, some 1, some 0, [0, 1, 2], [], 3, 100, 7, fun _ => 0⟩
      ⟨true, 200, 210, [], fun _ => 0, true, 16⟩ 2 0 false
      [⟨EV_KEY, KEY_RIGHT, 1⟩]).1 (by decide),
   (C10_index_reload_invariant ⟨4, 2, 16, 2⟩
      ⟨0, false, some 2, some 0, some 1, some 0, [0, 1, 2], [], 3, 100, 7, fun _ => 0⟩
      ⟨true, 200, 210, [], fun _ => 0, true, 16⟩ 2 0 false
      [⟨EV_KEY, KEY_RIGHT, 1⟩]).2.1 (fun _ _ => rfl),
   (C10_index_reload_invariant ⟨4, 2, 16, 2⟩
      ⟨0, false, some 2, some 0, some 1, some 0, [0, 1, 2], [], 3, 100, 7, fun _ => 0⟩
      ⟨true, 200, 210, [], fun _ => 0, true, 16⟩ 2 0 false
      [⟨EV_KEY, KEY_RIGHT, 1⟩]).2.2.2 rfl⟩

/-- C1: evaluation of the rebuild path at a failing load.  State: a
previously Active pipeline (handle 2, modules 0 and 1, all live, built for
program 0), a reload request pending for program 1, and both binary loads
failing.  The code (lines 540-554) destroys the pipeline and both shader
modules BEFORE attempting the loads, so after the failed attempt nothing is
left live - the destroy log shows pipeline 2, then modules 0 and 1,
destroyed during an iteration that constructed no replacement - refuting
the claim that the previous Active set remains intact and usable; only the
retry scheduling (reload flag still set, `sleep(1); continue`) matches the
claim. -/
theorem C1_destroy_before_load_eval :
    isRetry (iterStep ⟨4, 2, 16, 2⟩
      ⟨1, true, some 2, some 0, some 1, some 0, [0, 1, 2], [], 3, 100, 7, fun _ => 0⟩
      ⟨false, 200, 210, [], fun _ => 0, true, 16⟩) = true ∧
    (stateOf (iterStep ⟨4, 2, 16, 2⟩
      ⟨1, true, some 2, some 0, some 1, some 0, [0, 1, 2], [], 3, 100, 7, fun _ => 0⟩
      ⟨false, 200, 210, [], fun _ => 0, true, 16⟩)).live = [] ∧
    (stateOf (iterStep ⟨4, 2, 16, 2⟩
      ⟨1, true, some 2, some 0, some 1, some 0, [0, 1, 2], [], 3, 100, 7, fun _ => 0⟩
      ⟨false, 200, 210, [], fun _ => 0, true, 16⟩)).destroyed = [2, 0, 1] ∧
    (stateOf (iterStep ⟨4, 2, 16, 2⟩
      ⟨1, true, some 2, some 0, some 1, some 0, [0, 1, 2], [], 3, 100, 7, fun _ => 0⟩
      ⟨false, 200, 210, [], fun _ => 0, true, 16⟩)).reload_requested = true ∧
    submits (iterStep ⟨4, 2, 16, 2⟩
      ⟨1, true, some 2, some 0, some 1, some 0, [0, 1, 2], [], 3, 100, 7, fun _ => 0⟩
      ⟨false, 200, 210, [], fun _ => 0, true, 16⟩) = false := by
  refine ⟨rfl, rfl, rfl, rfl, rfl⟩

end Metalshader
